import Mathlib

/-!
Verification of the `mythical` tracker bot's generic persistence layer and
its per-game update plugins, shallowly embedded from the Python source.

The SQLite tables of `mythical/tracker.py` are modelled as lists of rows
held in a `Store` record:
  * `players`     — `{prefix}_players`: rows `(id, fields)`, where `fields`
    is the kind-specific record (`RaiderPlayer`, `ValorantPlayer`, ...)
    minus the surrogate `id`; `nextId` models the AUTOINCREMENT sequence.
  * `spectators`  — `{prefix}_spectators`: rows `(guild_id, player_id, user_id)`
    with `UNIQUE (guild_id, player_id)` enforced by `INSERT OR IGNORE`.
  * `channels`    — `{prefix}_channels`: rows `(guild_id, channel_id)` with
    `UNIQUE (guild_id)`.
`SELECT DISTINCT` is modelled by `List.dedup` (same multiset of rows; SQL
row order is unspecified anyway).  Network fetches are passed in as
`Except`-valued oracles, and Discord message delivery is abstracted to the
list of `(guild_id, channel_id, user_id)` targets actually sent to —
rendering of embed content is an external collaborator.
-/

namespace Mythical

/-- The three tables owned by one `Tracker` instance, plus the
AUTOINCREMENT counter of the players table. -/
structure Store (F : Type) where
  players : List (Nat × F)
  nextId : Nat
  spectators : List (Nat × Nat × Option Nat)
  channels : List (Nat × Nat)
deriving DecidableEq

namespace Tracker

variable {F : Type} {K : Type}

/-- `Tracker.create_player`: `INSERT OR IGNORE INTO players (fields) VALUES (?)`,
returning the freshly built record on insertion and `None` when the
natural-key UNIQUE constraint fires.  `key` is the natural key declared by
the kind's schema (for raider it is case-folded, per `COLLATE NOCASE`). -/
def create_player [DecidableEq K] (key : F → K) (f : F) (s : Store F) :
    Option (Nat × F) × Store F :=
  if s.players.any (fun p => key p.2 == key f) then
    (none, s)
  else
    (some (s.nextId, f),
     { s with players := s.players ++ [(s.nextId, f)], nextId := s.nextId + 1 })

/-- `Tracker.get_player`: `SELECT id, fields FROM players WHERE k1=? AND k2=? ...`
followed by `fetchone`.  The WHERE clause built from the kwargs is the
conjunction of per-column equality tests, abstracted as the row predicate
`q`; `fetchone` on an unordered scan is the first row in table order. -/
def get_player (q : Nat × F → Bool) (s : Store F) : Option (Nat × F) :=
  s.players.find? q

/-- `Tracker.delete_players_without_spectator`:
`DELETE FROM players WHERE id NOT IN (SELECT DISTINCT player_id FROM spectators)`,
returning `cursor.rowcount` (the number of deleted rows). -/
def delete_players_without_spectator (s : Store F) : Nat × Store F :=
  let deleted := s.players.filter (fun p => !s.spectators.any (fun r => r.2.1 == p.1))
  let kept := s.players.filter (fun p => s.spectators.any (fun r => r.2.1 == p.1))
  (deleted.length, { s with players := kept })

/-- `Tracker.create_spectator`:
`INSERT OR IGNORE INTO spectators (guild_id, player_id, user_id) VALUES (?, ?, ?)`
under `UNIQUE (guild_id, player_id)`; returns `cursor.rowcount > 0`. -/
def create_spectator (guild_id player_id : Nat) (user_id : Option Nat) (s : Store F) :
    Bool × Store F :=
  if s.spectators.any (fun r => r.1 == guild_id && r.2.1 == player_id) then
    (false, s)
  else
    (true, { s with spectators := s.spectators ++ [(guild_id, player_id, user_id)] })

/-- `Tracker.get_players_spectated_by_guild`:
`SELECT DISTINCT id, fields, user_id FROM spectators LEFT JOIN players
ON spectators.player_id = players.id WHERE guild_id = ?`.  A spectator row
whose `player_id` hits no player is NULL-extended on the players side
(the `Option` in the first component). -/
def get_players_spectated_by_guild [DecidableEq F] (guild_id : Nat) (s : Store F) :
    List (Option (Nat × F) × Option Nat) :=
  ((s.spectators.filter (fun r => r.1 == guild_id)).flatMap (fun r =>
    let hits := s.players.filter (fun p => p.1 == r.2.1)
    if hits.isEmpty then [(none, r.2.2)]
    else hits.map (fun p => (some p, r.2.2)))).dedup

/-- `Tracker.get_spectated_players`:
`SELECT DISTINCT id, fields FROM spectators LEFT JOIN players
ON spectators.player_id = players.id`. -/
def get_spectated_players [DecidableEq F] (s : Store F) : List (Option (Nat × F)) :=
  (s.spectators.flatMap (fun r =>
    let hits := s.players.filter (fun p => p.1 == r.2.1)
    if hits.isEmpty then [none]
    else hits.map some)).dedup

/-- `Tracker.set_channel_if_unset`:
`INSERT OR IGNORE INTO channels (guild_id, channel_id) VALUES (?, ?)` under
`UNIQUE (guild_id)` — the first-touch default. -/
def set_channel_if_unset (guild_id channel_id : Nat) (s : Store F) : Store F :=
  if s.channels.any (fun r => r.1 == guild_id) then s
  else { s with channels := s.channels ++ [(guild_id, channel_id)] }

/-- `Tracker.set_channel`:
`INSERT INTO channels (guild_id, channel_id) VALUES (?, ?)
ON CONFLICT (guild_id) DO UPDATE SET channel_id = excluded.channel_id` —
the explicit upsert overwrite. -/
def set_channel (guild_id channel_id : Nat) (s : Store F) : Store F :=
  if s.channels.any (fun r => r.1 == guild_id) then
    { s with channels := s.channels.map (fun r =>
        if r.1 == guild_id then (r.1, channel_id) else r) }
  else { s with channels := s.channels ++ [(guild_id, channel_id)] }

/-- `Tracker.get_spectator_channels`:
`SELECT channels.guild_id, channel_id, user_id FROM channels LEFT JOIN
spectators ON channels.guild_id = spectators.guild_id WHERE player_id = ?`.
The `WHERE player_id = ?` filter rejects the NULL-extended rows that the
LEFT JOIN produces for guilds without a matching spectator row, so only
genuine join rows survive. -/
def get_spectator_channels (player_id : Nat) (s : Store F) :
    List (Nat × Nat × Option Nat) :=
  s.channels.flatMap (fun ch =>
    (s.spectators.filter (fun r => r.1 == ch.1 && r.2.1 == player_id)).map
      (fun r => (ch.1, ch.2, r.2.2)))

/-- Number of subscription rows referencing a given player id (the player's
subscription count). -/
def subscriptionCount (s : Store F) (player_id : Nat) : Nat :=
  s.spectators.countP (fun r => r.2.1 == player_id)

end Tracker

/-- `RaiderPlayer` minus the surrogate id: `region`, `realm`, `name`
(VARCHAR COLLATE NOCASE) and the mutable `rating` (FLOAT, modelled as ℚ so
that equality is the exact equality the code uses). -/
structure RaiderFields where
  region : String
  realm : String
  name : String
  rating : Rat
deriving DecidableEq

/-- The `UNIQUE (region, realm, name)` natural key of the raider schema;
`COLLATE NOCASE` makes the comparison case-insensitive, modelled by
case-folding. -/
def RaiderFields.key (f : RaiderFields) : String × String × String :=
  (f.region.toLower, f.realm.toLower, f.name.toLower)

namespace RaiderTracker

/-- `RaiderTracker.set_rating`: `UPDATE players SET rating=? WHERE id=?`. -/
def set_rating (player_id : Nat) (rating : Rat) (s : Store RaiderFields) :
    Store RaiderFields :=
  { s with players := s.players.map (fun p =>
      if p.1 == player_id then (p.1, { p.2 with rating := rating }) else p) }

end RaiderTracker

/-- `FaceitPlayer` minus the surrogate id: `nickname` (the `UNIQUE` natural
key), and the mutable `level` and `elo` INTEGER columns. -/
structure FaceitFields where
  nickname : String
  level : Int
  elo : Int
deriving DecidableEq

namespace FaceitTracker

/-- `FaceitTracker.set_level`: `UPDATE players SET (level, elo)=(?, ?) WHERE id=?`. -/
def set_level (player_id : Nat) (level elo : Int) (s : Store FaceitFields) :
    Store FaceitFields :=
  { s with players := s.players.map (fun p =>
      if p.1 == player_id then (p.1, { p.2 with level := level, elo := elo }) else p) }

end FaceitTracker

/-- `ValorantPlayer` minus the surrogate id: `riot_id` is the `UNIQUE`
natural key; `rank`, `rr` and `rr_mod` are the mutable columns. -/
structure ValorantFields where
  region : String
  name : String
  tag : String
  riot_id : String
  rank : String
  rr : Int
  rr_mod : Int
deriving DecidableEq

namespace ValorantTracker

/-- `ValorantTracker.set_level`:
`UPDATE players SET (rank, rr, rr_mod)=(?, ?, ?) WHERE id=?`. -/
def set_level (player_id : Nat) (rank : String) (rr rr_mod : Int)
    (s : Store ValorantFields) : Store ValorantFields :=
  { s with players := s.players.map (fun p =>
      if p.1 == player_id then
        (p.1, { p.2 with rank := rank, rr := rr, rr_mod := rr_mod })
      else p) }

end ValorantTracker

namespace RaiderPlugin

/-- `RaiderPlugin.update_player`: if the freshly computed rating differs
from the stored one, persist it via `set_rating` and send one embed per
`get_spectator_channels` row whose channel id resolves to a live channel
(`client.get_channel`, abstracted as the `resolve` oracle); otherwise do
nothing.  The returned list holds the delivery targets, in order. -/
def update_player (resolve : Nat → Bool) (player : Nat × RaiderFields)
    (new_rating : Rat) (s : Store RaiderFields) :
    Store RaiderFields × List (Nat × Nat × Option Nat) :=
  if new_rating ≠ player.2.rating then
    let s' := RaiderTracker.set_rating player.1 new_rating s
    (s', (Tracker.get_spectator_channels player.1 s').filter (fun c => resolve c.2.1))
  else
    (s, [])

/-- The body of `RaiderPlugin.update`'s per-tick loop over the given
spectated players: fetching and recomputing the rating is the `fetch`
oracle; a `BotError` raised there is caught, printed, and the loop
continues with the next player (`except BotError: ... continue`). -/
def update (fetch : Nat × RaiderFields → Except String Rat) (resolve : Nat → Bool)
    (players : List (Nat × RaiderFields)) (s : Store RaiderFields) :
    Store RaiderFields × List (Nat × Nat × Option Nat) :=
  match players with
  | [] => (s, [])
  | p :: rest =>
    match fetch p with
    | .error _ => update fetch resolve rest s
    | .ok new_rating =>
      let step := update_player resolve p new_rating s
      let sweep := update fetch resolve rest step.1
      (sweep.1, step.2 ++ sweep.2)

end RaiderPlugin

/-- The fields `ValorantPlugin.update_player` reads out of the
`/v1/by-puuid/mmr` response: `data["currenttierpatched"]`, `data["elo"]`,
`data["ranking_in_tier"]`. -/
structure ValorantData where
  currenttierpatched : String
  elo : Int
  ranking_in_tier : Int
deriving DecidableEq

namespace ValorantPlugin

/-- `ValorantPlugin.update_player`: the guard in the source is literally
`if new_rr != player.rr or True:` — the `or True` makes it
unconditionally taken — and inside it the new rank/rr/rr_mod are persisted
via `set_level` and one embed is sent per `get_spectator_channels` row
whose channel id resolves (match-history rendering is an external
collaborator and does not affect the target set). -/
def update_player (resolve : Nat → Bool) (player : Nat × ValorantFields)
    (data : ValorantData) (s : Store ValorantFields) :
    Store ValorantFields × List (Nat × Nat × Option Nat) :=
  if data.elo ≠ player.2.rr ∨ True then
    let s' := ValorantTracker.set_level player.1 data.currenttierpatched
        data.elo data.ranking_in_tier s
    (s', (Tracker.get_spectator_channels player.1 s').filter (fun c => resolve c.2.1))
  else
    (s, [])

/-- The body of `ValorantPlugin.update`'s per-tick loop over the given
spectated players.  Unlike the raider loop there is no `try/except`
around the fetch: a `BotError` raised by
`get_valorant_rank_by_riot_id` propagates out of the loop, so the players
already processed keep their updates and the remaining players are not
fetched at all.  The third component records the escaped error, if any. -/
def update (fetch : Nat × ValorantFields → Except String ValorantData)
    (resolve : Nat → Bool) (players : List (Nat × ValorantFields))
    (s : Store ValorantFields) :
    Store ValorantFields × List (Nat × Nat × Option Nat) × Option String :=
  match players with
  | [] => (s, [], none)
  | p :: rest =>
    match fetch p with
    | .error e => (s, [], some e)
    | .ok data =>
      let step := update_player resolve p data s
      let sweep := update fetch resolve rest step.1
      (sweep.1, step.2 ++ sweep.2.1, sweep.2.2)

end ValorantPlugin

/-- Concrete store over bare `Nat` fields used to instantiate the generic
store theorems: two players, of which only player 1 is watched. -/
def natStore : Store Nat :=
  { players := [(1, 7), (2, 8)], nextId := 3,
    spectators := [(10, 1, none)], channels := [(10, 99)] }


/-- Store over bare `Nat` fields with one player and an empty subscription
graph, used to instantiate the subscribe idempotence theorem. -/
def natStoreEmptySpec : Store Nat :=
  { players := [(1, 7)], nextId := 2, spectators := [], channels := [] }


/-- Store over bare `Nat` fields with one player watched by two guilds, of
which only guild 20 already has a channel row; used to instantiate the
two-group channel-attribution theorem. -/
def natStoreChans : Store Nat :=
  { players := [(1, 7)], nextId := 2,
    spectators := [(20, 1, none), (30, 1, some 4)], channels := [(20, 77)] }

/-- Concrete raider store with two players, used to instantiate the frame
theorem for `set_rating`. -/
def raiderStoreW : Store RaiderFields :=
  { players := [(1, ⟨"us", "stormrage", "bkim", 1500⟩),
                (2, ⟨"us", "tichondrius", "noah", 1400⟩)],
    nextId := 3, spectators := [(10, 1, none)], channels := [(10, 99)] }

/-- Concrete faceit store with one player, used to instantiate the frame
theorem for `set_level`. -/
def faceitStoreW : Store FaceitFields :=
  { players := [(1, ⟨"s1mple", 10, 3001⟩)], nextId := 2,
    spectators := [], channels := [] }

/-- Stored valorant record whose tracked fields coincide with
`valorantDataSame`. -/
def valorantPlayerSame : ValorantFields :=
  ⟨"na", "bob", "123", "riot1", "Gold 1", 1500, 50⟩

/-- Store holding `valorantPlayerSame`, watched by guild 10 whose
notification channel is 99. -/
def valorantStoreSame : Store ValorantFields :=
  { players := [(1, valorantPlayerSame)], nextId := 2,
    spectators := [(10, 1, none)], channels := [(10, 99)] }

/-- Fetched state identical, field for field, to the stored
`valorantPlayerSame`. -/
def valorantDataSame : ValorantData := ⟨"Gold 1", 1500, 50⟩

/-- Two stored valorant players, both watched by guild 10. -/
def valorantPlayerX : ValorantFields := ⟨"na", "alice", "1", "riotX", "Gold 1", 1500, 50⟩

/-- See `valorantPlayerX`. -/
def valorantPlayerY : ValorantFields := ⟨"na", "bob", "2", "riotY", "Gold 1", 1400, 40⟩

/-- Store holding `valorantPlayerX` and `valorantPlayerY`, both watched by
guild 10 whose notification channel is 99. -/
def valorantStoreXY : Store ValorantFields :=
  { players := [(1, valorantPlayerX), (2, valorantPlayerY)], nextId := 3,
    spectators := [(10, 1, none), (10, 2, none)], channels := [(10, 99)] }

/-- Fetch oracle whose call for player id 1 raises (`BotError`) and whose
call for any other player succeeds with a changed rank state. -/
def valorantFetchFailFirst : Nat × ValorantFields → Except String ValorantData :=
  fun p => if p.1 == 1 then .error "transient" else .ok ⟨"Gold 2", 1450, 60⟩

/-- Two stored raider players, both watched by guild 10 (the raider
counterpart of `valorantStoreXY`). -/
def raiderPlayerX : RaiderFields := ⟨"us", "stormrage", "alice", 1500⟩

/-- See `raiderPlayerX`. -/
def raiderPlayerY : RaiderFields := ⟨"us", "stormrage", "bob", 1400⟩

/-- Store holding `raiderPlayerX` and `raiderPlayerY`, both watched by
guild 10 whose notification channel is 99. -/
def raiderStoreXY : Store RaiderFields :=
  { players := [(1, raiderPlayerX), (2, raiderPlayerY)], nextId := 3,
    spectators := [(10, 1, none), (10, 2, none)], channels := [(10, 99)] }

/-- Fetch oracle whose call for player id 1 raises (`BotError`) and whose
call for any other player succeeds with a changed rating. -/
def raiderFetchFailFirst : Nat × RaiderFields → Except String Rat :=
  fun p => if p.1 == 1 then .error "transient" else .ok 1600

/-- A call against the channel registry: the front end invokes
`set_channel_if_unset` on every `%add` command and `set_channel` on every
`%here` command, in any interleaving. -/
inductive ChanOp where
  | setIfUnset (guild_id channel_id : Nat)
  | set (guild_id channel_id : Nat)

/-- Apply one registry call to the store. -/
def applyChanOp {F : Type} (op : ChanOp) (s : Store F) : Store F :=
  match op with
  | .setIfUnset guild_id channel_id => Tracker.set_channel_if_unset guild_id channel_id s
  | .set guild_id channel_id => Tracker.set_channel guild_id channel_id s

/-- Apply a sequence of registry calls, oldest first. -/
def applyChanOps {F : Type} (ops : List ChanOp) (s : Store F) : Store F :=
  ops.foldl (fun t op => applyChanOp op t) s

/-- The `UNIQUE (guild_id)` invariant of the channels table: every group
has at most one notification-channel row. -/
def channelsUnique {F : Type} (s : Store F) : Prop :=
  ∀ guild_id : Nat, s.channels.countP (fun r => r.1 == guild_id) ≤ 1

section Claims

open Tracker

variable {F : Type} {K : Type}

/-- C3: `delete_players_without_spectator` removes exactly those players
whose subscription count is zero at call time — a player with one or more
subscription rows always survives — and returns the number of players
removed. -/
theorem delete_players_without_spectator_spec (s : Store F) (p : Nat × F)
    (hp : p ∈ s.players) :
    (p ∈ (delete_players_without_spectator s).2.players ↔
      subscriptionCount s p.1 ≠ 0)
    ∧ (delete_players_without_spectator s).1 =
        s.players.countP (fun q => subscriptionCount s q.1 == 0) := by
  constructor
  · rw [delete_players_without_spectator]
    simp only [List.mem_filter, hp, true_and]
    rw [List.any_eq_true, subscriptionCount, ← List.countP_pos_iff,
      Nat.pos_iff_ne_zero]
  · rw [delete_players_without_spectator]
    simp only
    rw [← List.countP_eq_length_filter]
    apply List.countP_congr
    intro q _
    simp [subscriptionCount, List.countP_eq_zero, List.any_eq_false]

theorem delete_players_without_spectator_spec_witness :
    (1, 7) ∈ natStore.players ∧
    (((1, 7) ∈ (delete_players_without_spectator natStore).2.players ↔
        subscriptionCount natStore (1, 7).1 ≠ 0)
      ∧ (delete_players_without_spectator natStore).1 =
          natStore.players.countP (fun q => subscriptionCount natStore q.1 == 0)) :=
  ⟨by decide, delete_players_without_spectator_spec natStore (1, 7) (by decide)⟩

/-- C4: when a first `create_player` call inserted a record, a second call
whose natural key collides inserts nothing: it returns `none`, leaves the
store (hence the first record's id and attributes) untouched, and at every
point exactly one stored record carries that natural key. -/
theorem create_player_duplicate_key_spec [DecidableEq K] (key : F → K)
    (f g : F) (s : Store F)
    (h : (create_player key f s).1 ≠ none) (hk : key g = key f) :
    (create_player key g (create_player key f s).2).1 = none
    ∧ (create_player key g (create_player key f s).2).2 = (create_player key f s).2
    ∧ (create_player key f s).2.players.countP (fun p => key p.2 == key f) = 1
    ∧ (create_player key g (create_player key f s).2).2.players.countP
        (fun p => key p.2 == key f) = 1 := by
  have hA : s.players.any (fun p => key p.2 == key f) = false := by
    by_contra hc
    rw [Bool.not_eq_false] at hc
    rw [create_player, if_pos hc] at h
    exact h rfl
  have e1 : create_player key f s =
      (some (s.nextId, f),
       { s with players := s.players ++ [(s.nextId, f)], nextId := s.nextId + 1 }) := by
    rw [create_player, if_neg (by simp [hA])]
  have hA2 : ((s.players ++ [(s.nextId, f)]).any (fun p => key p.2 == key g)) = true := by
    rw [List.any_eq_true]
    exact ⟨(s.nextId, f), by simp, by simp [hk]⟩
  have e2 : create_player key g (create_player key f s).2 =
      (none, (create_player key f s).2) := by
    rw [e1]
    rw [create_player, if_pos hA2]
  have hcount : (s.players ++ [(s.nextId, f)]).countP (fun p => key p.2 == key f) = 1 := by
    rw [List.countP_append]
    have h0 : s.players.countP (fun p => key p.2 == key f) = 0 := by
      rw [List.countP_eq_zero]
      intro a ha
      have := (List.any_eq_false).mp hA a ha
      simpa using this
    simp [h0]
  refine ⟨by rw [e2], by rw [e2], by rw [e1]; exact hcount, by rw [e2, e1]; exact hcount⟩

theorem create_player_duplicate_key_spec_witness :
    ((create_player (fun n => n) 9 natStore).1 ≠ none ∧ (fun n : Nat => n) 9 = (fun n : Nat => n) 9)
    ∧ ((create_player (fun n => n) 9 (create_player (fun n => n) 9 natStore).2).1 = none
      ∧ (create_player (fun n => n) 9 (create_player (fun n => n) 9 natStore).2).2
          = (create_player (fun n => n) 9 natStore).2
      ∧ (create_player (fun n => n) 9 natStore).2.players.countP
          (fun p => (fun n : Nat => n) p.2 == (fun n : Nat => n) 9) = 1
      ∧ (create_player (fun n => n) 9 (create_player (fun n => n) 9 natStore).2).2.players.countP
          (fun p => (fun n : Nat => n) p.2 == (fun n : Nat => n) 9) = 1) := by
  have h : (create_player (fun n : Nat => n) 9 natStore).1 ≠ none := by decide
  exact ⟨⟨h, rfl⟩, create_player_duplicate_key_spec (fun n => n) 9 9 natStore h rfl⟩

/-- C5: for a natural key not already present, `create_player` returns the
freshly assigned record (with its surrogate id) and an immediately
following `get_player` on the natural key returns that same record, field
for field. -/
theorem create_player_then_get_player_spec [DecidableEq K] (key : F → K)
    (f : F) (s : Store F) (h : ∀ p ∈ s.players, key p.2 ≠ key f) :
    (create_player key f s).1 = some (s.nextId, f)
    ∧ get_player (fun p => key p.2 == key f) (create_player key f s).2
        = some (s.nextId, f) := by
  have hA : s.players.any (fun p => key p.2 == key f) = false := by
    rw [List.any_eq_false]
    intro a ha
    simpa using h a ha
  have e1 : create_player key f s =
      (some (s.nextId, f),
       { s with players := s.players ++ [(s.nextId, f)], nextId := s.nextId + 1 }) := by
    rw [create_player, if_neg (by simp [hA])]
  refine ⟨by rw [e1], ?_⟩
  rw [e1, get_player]
  simp only [List.find?_append]
  have hn : s.players.find? (fun p => key p.2 == key f) = none := by
    rw [List.find?_eq_none]
    intro a ha
    simpa using h a ha
  rw [hn]
  simp

theorem create_player_then_get_player_spec_witness :
    (∀ p ∈ natStore.players, (fun n : Nat => n) p.2 ≠ (fun n : Nat => n) 9)
    ∧ ((create_player (fun n => n) 9 natStore).1 = some (natStore.nextId, 9)
      ∧ get_player (fun p => (fun n : Nat => n) p.2 == (fun n : Nat => n) 9)
          (create_player (fun n => n) 9 natStore).2 = some (natStore.nextId, 9)) :=
  ⟨by decide, create_player_then_get_player_spec (fun n => n) 9 natStore (by decide)⟩

/-- C6: subscribing the same `(guild, player)` pair twice returns `true`
then `false`, leaves the graph as after the first call, and afterwards
`get_players_spectated_by_guild` lists that player in exactly one row. -/
theorem create_spectator_idempotent_spec [DecidableEq F] (g pid : Nat)
    (u u' : Option Nat) (p : Nat × F) (s : Store F)
    (h0 : s.spectators.any (fun r => r.1 == g && r.2.1 == pid) = false)
    (hp : s.players.filter (fun q => q.1 == pid) = [p]) :
    (create_spectator g pid u s).1 = true
    ∧ (create_spectator g pid u' (create_spectator g pid u s).2).1 = false
    ∧ (create_spectator g pid u' (create_spectator g pid u s).2).2
        = (create_spectator g pid u s).2
    ∧ (get_players_spectated_by_guild g
        (create_spectator g pid u' (create_spectator g pid u s).2).2).countP
        (fun row => row.1 == some p) = 1 := by
  have e1 : create_spectator g pid u s =
      (true, { s with spectators := s.spectators ++ [(g, pid, u)] }) := by
    rw [create_spectator, if_neg (by simp [h0])]
  have hA2 : ((s.spectators ++ [(g, pid, u)]).any
      (fun r => r.1 == g && r.2.1 == pid)) = true := by
    rw [List.any_eq_true]
    exact ⟨(g, pid, u), by simp, by simp⟩
  have e2 : create_spectator g pid u' (create_spectator g pid u s).2
      = (false, (create_spectator g pid u s).2) := by
    rw [e1]
    rw [create_spectator, if_pos hA2]
  refine ⟨by rw [e1], by rw [e2], by rw [e2], ?_⟩
  rw [e2, e1]
  have hppid : p.1 = pid := by
    have : p ∈ s.players.filter (fun q => q.1 == pid) := by rw [hp]; exact List.mem_singleton.mpr rfl
    simpa using (List.mem_filter.mp this).2
  -- the raw join rows for guild `g` in the extended graph
  rw [get_players_spectated_by_guild]
  set L := ((({ s with spectators := s.spectators ++ [(g, pid, u)] } :
      Store F).spectators.filter (fun r => r.1 == g)).flatMap (fun r =>
        let hits := ({ s with spectators := s.spectators ++ [(g, pid, u)] } :
          Store F).players.filter (fun q => q.1 == r.2.1)
        if hits.isEmpty then [(none, r.2.2)]
        else hits.map (fun q => (some q, r.2.2)))) with hL
  have hmem : ((some p, u) : Option (Nat × F) × Option Nat) ∈ L := by
    rw [hL, List.mem_flatMap]
    refine ⟨(g, pid, u), ?_, ?_⟩
    · simp [List.mem_filter]
    · simp only [hp]
      simp
  have honly : ∀ e ∈ L, e.1 = some p → e = (some p, u) := by
    intro e he h1
    rw [hL, List.mem_flatMap] at he
    obtain ⟨r, hr, her⟩ := he
    simp only [List.mem_filter, List.mem_append] at hr
    by_cases hemp : ((s.players.filter (fun q => q.1 == r.2.1)).isEmpty) = true
    · simp only [hemp] at her
      rw [if_pos trivial] at her
      simp only [List.mem_singleton] at her
      rw [her] at h1
      simp at h1
    · rw [Bool.not_eq_true] at hemp
      simp only [hemp] at her
      rw [if_neg (by simp)] at her
      rw [List.mem_map] at her
      obtain ⟨q, hq, hqe⟩ := her
      have hq1 : q = p := by
        rw [← hqe] at h1
        simpa using h1
      subst hq1
      have hr21 : q.1 = r.2.1 := by simpa using (List.mem_filter.mp hq).2
      -- the joined spectator row is for our player, so it is the new row
      have hrnew : r = (g, pid, u) := by
        rcases hr.1 with hold | hnew
        · exfalso
          have : s.spectators.any (fun t => t.1 == g && t.2.1 == pid) = true := by
            rw [List.any_eq_true]
            refine ⟨r, hold, ?_⟩
            have hrg : r.1 = g := by simpa using hr.2
            rw [hrg, ← hr21, hppid]
            simp
          rw [h0] at this
          exact Bool.false_ne_true this
        · simpa using hnew
      rw [← hqe, hrnew]
  have hnodup := List.nodup_dedup L
  have hmemd : ((some p, u) : Option (Nat × F) × Option Nat) ∈ L.dedup :=
    List.mem_dedup.mpr hmem
  have hsub : ∀ b ∈ L.dedup.filter (fun row => row.1 == some p),
      b = ((some p, u) : Option (Nat × F) × Option Nat) := by
    intro b hb
    rw [List.mem_filter] at hb
    exact honly b (List.mem_dedup.mp hb.1) (by simpa using hb.2)
  have hmemf : ((some p, u) : Option (Nat × F) × Option Nat) ∈
      L.dedup.filter (fun row => row.1 == some p) := by
    rw [List.mem_filter]
    exact ⟨hmemd, by simp⟩
  have hnd : (L.dedup.filter (fun row => row.1 == some p)).Nodup := hnodup.filter _
  rw [List.countP_eq_length_filter]
  cases hfe : L.dedup.filter (fun row => row.1 == some p) with
  | nil => rw [hfe] at hmemf; cases hmemf
  | cons x xs =>
    rw [hfe] at hsub hnd hmemf
    have hx : x = ((some p, u) : Option (Nat × F) × Option Nat) :=
      hsub x (List.mem_cons_self x xs)
    have hxs : xs = [] := by
      cases xs with
      | nil => rfl
      | cons y ys =>
        have hy : y = ((some p, u) : Option (Nat × F) × Option Nat) := hsub y (by simp)
        exact absurd (by rw [hx, ← hy]; simp : x ∈ (y :: ys))
          (List.nodup_cons.mp hnd).1
    simp [hxs]

theorem create_spectator_idempotent_spec_witness :
    (natStoreEmptySpec.spectators.any (fun r => r.1 == 10 && r.2.1 == 1) = false
     ∧ natStoreEmptySpec.players.filter (fun q => q.1 == 1) = [(1, 7)])
    ∧ ((create_spectator 10 1 none natStoreEmptySpec).1 = true
      ∧ (create_spectator 10 1 (some 5)
          (create_spectator 10 1 none natStoreEmptySpec).2).1 = false
      ∧ (create_spectator 10 1 (some 5)
          (create_spectator 10 1 none natStoreEmptySpec).2).2
          = (create_spectator 10 1 none natStoreEmptySpec).2
      ∧ (get_players_spectated_by_guild 10
          (create_spectator 10 1 (some 5)
            (create_spectator 10 1 none natStoreEmptySpec).2).2).countP
          (fun row => row.1 == some (1, 7)) = 1) :=
  ⟨⟨by decide, by decide⟩,
   create_spectator_idempotent_spec 10 1 none (some 5) (1, 7) natStoreEmptySpec
     (by decide) (by decide)⟩

lemma upd_fst (g c : Nat) (r : Nat × Nat) :
    (if r.1 == g then (r.1, c) else r).1 = r.1 := by
  by_cases h : (r.1 == g) = true <;> simp [h]

lemma countP_channels_map_upd (g c gd : Nat) (l : List (Nat × Nat)) :
    (l.map (fun r => if r.1 == g then (r.1, c) else r)).countP (fun r => r.1 == gd)
      = l.countP (fun r => r.1 == gd) := by
  rw [List.countP_map]
  apply List.countP_congr
  intro r _
  simp only [Function.comp_apply, upd_fst]

lemma channelsUnique_set_channel_if_unset (g c : Nat) (s : Store F)
    (h : channelsUnique s) : channelsUnique (Tracker.set_channel_if_unset g c s) := by
  intro gd
  rw [Tracker.set_channel_if_unset]
  split
  · exact h gd
  · rename_i hany
    rw [Bool.not_eq_true] at hany
    show ((s.channels ++ [(g, c)]).countP _) ≤ 1
    rw [List.countP_append]
    by_cases hg : g = gd
    · have h0 : s.channels.countP (fun r => r.1 == gd) = 0 := by
        rw [List.countP_eq_zero]
        intro a ha hc
        have : (a.1 == g) = true := by subst hg; exact hc
        have := List.any_eq_false.mp hany a ha
        simp_all
      rw [h0]
      simp [List.countP_cons, hg]
    · have h1 : s.channels.countP (fun r => r.1 == gd) ≤ 1 := h gd
      have h2 : ([((g : Nat), (c : Nat))].countP (fun r => r.1 == gd)) = 0 := by
        simp [List.countP_cons, hg]
      omega

lemma channelsUnique_set_channel (g c : Nat) (s : Store F)
    (h : channelsUnique s) : channelsUnique (Tracker.set_channel g c s) := by
  intro gd
  rw [Tracker.set_channel]
  split
  · show ((s.channels.map _).countP _) ≤ 1
    rw [countP_channels_map_upd]
    exact h gd
  · rename_i hany
    rw [Bool.not_eq_true] at hany
    show ((s.channels ++ [(g, c)]).countP _) ≤ 1
    rw [List.countP_append]
    by_cases hg : g = gd
    · have h0 : s.channels.countP (fun r => r.1 == gd) = 0 := by
        rw [List.countP_eq_zero]
        intro a ha hc
        have : (a.1 == g) = true := by subst hg; exact hc
        have := List.any_eq_false.mp hany a ha
        simp_all
      rw [h0]
      simp [List.countP_cons, hg]
    · have h1 : s.channels.countP (fun r => r.1 == gd) ≤ 1 := h gd
      have h2 : ([((g : Nat), (c : Nat))].countP (fun r => r.1 == gd)) = 0 := by
        simp [List.countP_cons, hg]
      omega

lemma channelsUnique_applyChanOps (ops : List ChanOp) (s : Store F)
    (h : channelsUnique s) : channelsUnique (applyChanOps ops s) := by
  induction ops generalizing s with
  | nil => exact h
  | cons op rest ih =>
    show channelsUnique (applyChanOps rest (applyChanOp op s))
    refine ih _ ?_
    cases op with
    | setIfUnset g c => exact channelsUnique_set_channel_if_unset g c s h
    | set g c => exact channelsUnique_set_channel g c s h

lemma set_channel_filter_self (g c : Nat) (s : Store F)
    (h : s.channels.countP (fun r => r.1 == g) ≤ 1) :
    (Tracker.set_channel g c s).channels.filter (fun r => r.1 == g) = [(g, c)] := by
  rw [Tracker.set_channel]
  split
  · rename_i hany
    show (s.channels.map _).filter _ = _
    rw [List.filter_map]
    have hcong : s.channels.filter
        ((fun r => r.1 == g) ∘ fun r => if r.1 == g then (r.1, c) else r)
        = s.channels.filter (fun r => r.1 == g) :=
      List.filter_congr (fun r _ => by simp only [Function.comp_apply, upd_fst])
    rw [hcong]
    obtain ⟨r, hr, hpr⟩ := List.any_eq_true.mp hany
    have hmem : r ∈ s.channels.filter (fun t => t.1 == g) :=
      List.mem_filter.mpr ⟨hr, hpr⟩
    have hlen : (s.channels.filter (fun t => t.1 == g)).length = 1 := by
      have h1 : 0 < (s.channels.filter (fun t => t.1 == g)).length :=
        List.length_pos.mpr (List.ne_nil_of_mem hmem)
      have h2 : (s.channels.filter (fun t => t.1 == g)).length ≤ 1 := by
        rw [← List.countP_eq_length_filter]
        exact h
      omega
    obtain ⟨a, ha⟩ := List.length_eq_one.mp hlen
    have hamem : a ∈ s.channels.filter (fun t => t.1 == g) := by
      rw [ha]
      exact List.mem_singleton.mpr rfl
    have ha1 : (a.1 == g) = true := (List.mem_filter.mp hamem).2
    rw [ha]
    simp only [List.map_cons, List.map_nil]
    have : (if a.1 == g then (a.1, c) else a) = (g, c) := by
      rw [if_pos ha1]
      have hag : a.1 = g := by simpa using ha1
      rw [hag]
    rw [this]
  · rename_i hany
    rw [Bool.not_eq_true] at hany
    show ((s.channels ++ [(g, c)]).filter _) = _
    rw [List.filter_append]
    have h0 : s.channels.filter (fun r => r.1 == g) = [] := by
      rw [List.filter_eq_nil_iff]
      exact List.any_eq_false.mp hany
    rw [h0]
    simp

/-- C8: after any sequence of `set_channel_if_unset` / `set_channel` calls
starting from a store satisfying the `UNIQUE (guild_id)` invariant, every
group still maps to at most one channel; `set_channel_if_unset` leaves an
already-set mapping completely unchanged (first write wins); `set_channel`
always leaves the group mapped to exactly the newly given channel. -/
theorem channel_registry_unique_sink_spec (s : Store F) (h : channelsUnique s) :
    (∀ ops : List ChanOp, channelsUnique (applyChanOps ops s))
    ∧ (∀ guild_id channel_id : Nat,
        s.channels.any (fun r => r.1 == guild_id) = true →
        Tracker.set_channel_if_unset guild_id channel_id s = s)
    ∧ (∀ guild_id channel_id : Nat,
        (Tracker.set_channel guild_id channel_id s).channels.filter
          (fun r => r.1 == guild_id) = [(guild_id, channel_id)]) := by
  refine ⟨fun ops => channelsUnique_applyChanOps ops s h, ?_, ?_⟩
  · intro g c hany
    rw [Tracker.set_channel_if_unset, if_pos hany]
  · intro g c
    exact set_channel_filter_self g c s (h g)

theorem channel_registry_unique_sink_spec_witness :
    channelsUnique (natStoreEmptySpec)
    ∧ ((∀ ops : List ChanOp, channelsUnique (applyChanOps ops natStoreEmptySpec))
      ∧ (∀ guild_id channel_id : Nat,
          natStoreEmptySpec.channels.any (fun r => r.1 == guild_id) = true →
          Tracker.set_channel_if_unset guild_id channel_id natStoreEmptySpec
            = natStoreEmptySpec)
      ∧ (∀ guild_id channel_id : Nat,
          (Tracker.set_channel guild_id channel_id natStoreEmptySpec).channels.filter
            (fun r => r.1 == guild_id) = [(guild_id, channel_id)])) := by
  have h : channelsUnique (natStoreEmptySpec : Store Nat) := by
    intro gd
    simp [natStoreEmptySpec]
  exact ⟨h, channel_registry_unique_sink_spec natStoreEmptySpec h⟩

lemma mem_get_spectator_channels {pid : Nat} {s : Store F} {g c : Nat}
    {u : Option Nat} :
    (g, c, u) ∈ Tracker.get_spectator_channels pid s ↔
      (g, c) ∈ s.channels ∧ (g, pid, u) ∈ s.spectators := by
  rw [Tracker.get_spectator_channels, List.mem_flatMap]
  constructor
  · rintro ⟨⟨ch1, ch2⟩, hch, hin⟩
    rw [List.mem_map] at hin
    obtain ⟨⟨r1, r2, r3⟩, hr, hre⟩ := hin
    rw [List.mem_filter] at hr
    obtain ⟨hrs, hrp⟩ := hr
    rw [Bool.and_eq_true] at hrp
    simp only [Prod.mk.injEq] at hre
    obtain ⟨e1, e2, e3⟩ := hre
    have h1 : r1 = g := by
      have hx : r1 = ch1 := by simpa using hrp.1
      rw [hx, e1]
    have h2 : r2 = pid := by simpa using hrp.2
    refine ⟨?_, ?_⟩
    · rw [← e1, ← e2]
      exact hch
    · rw [← h1, ← h2, ← e3]
      exact hrs
  · rintro ⟨hc, hs⟩
    refine ⟨(g, c), hc, ?_⟩
    rw [List.mem_map]
    exact ⟨(g, pid, u), List.mem_filter.mpr ⟨hs, by simp⟩, rfl⟩

/-- C10: `get_spectator_channels` yields an entry for a group iff the
group both has a channel-registry row and a subscription row for the given
player; a group subscribed to the player but absent from the channel
registry is silently omitted. -/
theorem get_spectator_channels_entry_iff (pid g : Nat) (s : Store F) :
    (∃ e ∈ Tracker.get_spectator_channels pid s, e.1 = g) ↔
      ((∃ c, (g, c) ∈ s.channels) ∧ ∃ u, (g, pid, u) ∈ s.spectators) := by
  constructor
  · rintro ⟨⟨e1, e2, e3⟩, he, hg⟩
    have he1 : e1 = g := by simpa using hg
    subst he1
    have := mem_get_spectator_channels.mp he
    exact ⟨⟨e2, this.1⟩, ⟨e3, this.2⟩⟩
  · rintro ⟨⟨c, hc⟩, ⟨u, hu⟩⟩
    exact ⟨(g, c, u), mem_get_spectator_channels.mpr ⟨hc, hu⟩, rfl⟩

lemma countP_get_spectator_channels (pid g : Nat) (s : Store F) :
    (Tracker.get_spectator_channels pid s).countP (fun e => e.1 == g) =
      s.channels.countP (fun ch => ch.1 == g) *
        s.spectators.countP (fun r => r.1 == g && r.2.1 == pid) := by
  rw [Tracker.get_spectator_channels]
  generalize s.channels = chs
  induction chs with
  | nil => simp
  | cons ch rest ih =>
    rw [List.flatMap_cons, List.countP_append, ih, List.countP_cons, List.countP_map]
    by_cases hg : (ch.1 == g) = true
    · have hc : ((fun e : Nat × Nat × Option Nat => e.1 == g) ∘
          fun r : Nat × Nat × Option Nat => (ch.1, ch.2, r.2.2)) =
          fun _ => true := by
        funext r
        simpa using hg
      rw [hc, if_pos hg, List.countP_true, ← List.countP_eq_length_filter]
      have hfe : s.spectators.countP (fun r => r.1 == ch.1 && r.2.1 == pid)
          = s.spectators.countP (fun r => r.1 == g && r.2.1 == pid) := by
        apply List.countP_congr
        intro r _
        have : ch.1 = g := by simpa using hg
        rw [this]
      rw [hfe]
      ring
    · have hc : ((fun e : Nat × Nat × Option Nat => e.1 == g) ∘
          fun r : Nat × Nat × Option Nat => (ch.1, ch.2, r.2.2)) =
          fun _ => false := by
        funext r
        simpa using hg
      rw [hc, if_neg hg, List.countP_false]
      simp [Function.const]

lemma set_channel_countP_ne (g c gd : Nat) (s : Store F) (h : g ≠ gd) :
    (Tracker.set_channel g c s).channels.countP (fun r => r.1 == gd)
      = s.channels.countP (fun r => r.1 == gd) := by
  rw [Tracker.set_channel]
  split
  · show (s.channels.map _).countP _ = _
    exact countP_channels_map_upd g c gd s.channels
  · show ((s.channels ++ [(g, c)]).countP _) = _
    rw [List.countP_append]
    simp [List.countP_cons, h]

lemma set_channel_mem_ne (g c : Nat) (r : Nat × Nat) (s : Store F) (h : r.1 ≠ g)
    (hm : r ∈ s.channels) : r ∈ (Tracker.set_channel g c s).channels := by
  rw [Tracker.set_channel]
  split
  · show r ∈ s.channels.map _
    rw [List.mem_map]
    refine ⟨r, hm, ?_⟩
    rw [if_neg]
    simp [h]
  · show r ∈ s.channels ++ _
    exact List.mem_append_left _ hm

lemma set_channel_spectators (g c : Nat) (s : Store F) :
    (Tracker.set_channel g c s).spectators = s.spectators := by
  rw [Tracker.set_channel]
  split <;> rfl

lemma set_channel_if_unset_spectators (g c : Nat) (s : Store F) :
    (Tracker.set_channel_if_unset g c s).spectators = s.spectators := by
  rw [Tracker.set_channel_if_unset]
  split <;> rfl

lemma set_channel_if_unset_channels_of_absent (g c : Nat) (s : Store F)
    (h : s.channels.countP (fun r => r.1 == g) = 0) :
    (Tracker.set_channel_if_unset g c s).channels = s.channels ++ [(g, c)] := by
  rw [Tracker.set_channel_if_unset, if_neg]
  intro hany
  obtain ⟨r, hr, hpr⟩ := List.any_eq_true.mp hany
  have := List.countP_eq_zero.mp h r hr
  exact this hpr

/-- C7: for a player watched by groups A and B, where B has only the
first-touch default channel (`set_channel_if_unset`) and A then sets its
channel explicitly (`set_channel`), `get_spectator_channels` yields both
channels, each attributed to its own group and tagged with that group's
subscription owner tag, and yields exactly one entry per group. -/
theorem get_spectator_channels_two_groups_spec (A B cA cB pid : Nat)
    (uA uB : Option Nat) (s : Store F)
    (hAB : A ≠ B)
    (hBunset : s.channels.countP (fun r => r.1 == B) = 0)
    (hAone : s.channels.countP (fun r => r.1 == A) ≤ 1)
    (hsA : s.spectators.countP (fun r => r.1 == A && r.2.1 == pid) = 1)
    (hsB : s.spectators.countP (fun r => r.1 == B && r.2.1 == pid) = 1)
    (hmA : (A, pid, uA) ∈ s.spectators) (hmB : (B, pid, uB) ∈ s.spectators) :
    (A, cA, uA) ∈ Tracker.get_spectator_channels pid
        (Tracker.set_channel A cA (Tracker.set_channel_if_unset B cB s))
    ∧ (B, cB, uB) ∈ Tracker.get_spectator_channels pid
        (Tracker.set_channel A cA (Tracker.set_channel_if_unset B cB s))
    ∧ (Tracker.get_spectator_channels pid
        (Tracker.set_channel A cA (Tracker.set_channel_if_unset B cB s))).countP
          (fun e => e.1 == A) = 1
    ∧ (Tracker.get_spectator_channels pid
        (Tracker.set_channel A cA (Tracker.set_channel_if_unset B cB s))).countP
          (fun e => e.1 == B) = 1 := by
  have e1 : (Tracker.set_channel_if_unset B cB s).channels = s.channels ++ [(B, cB)] :=
    set_channel_if_unset_channels_of_absent B cB s hBunset
  have espec : (Tracker.set_channel A cA (Tracker.set_channel_if_unset B cB s)).spectators
      = s.spectators := by
    rw [set_channel_spectators, set_channel_if_unset_spectators]
  have hA1 : (Tracker.set_channel_if_unset B cB s).channels.countP
      (fun r => r.1 == A) ≤ 1 := by
    rw [e1, List.countP_append]
    have : ([((B : Nat), (cB : Nat))].countP (fun r => r.1 == A)) = 0 := by
      simp [List.countP_cons, Ne.symm hAB]
    omega
  have hfA : (Tracker.set_channel A cA (Tracker.set_channel_if_unset B cB s)).channels.filter
      (fun r => r.1 == A) = [(A, cA)] :=
    set_channel_filter_self A cA _ hA1
  have hcA : (Tracker.set_channel A cA (Tracker.set_channel_if_unset B cB s)).channels.countP
      (fun r => r.1 == A) = 1 := by
    rw [List.countP_eq_length_filter, hfA]
    rfl
  have hcB : (Tracker.set_channel A cA (Tracker.set_channel_if_unset B cB s)).channels.countP
      (fun r => r.1 == B) = 1 := by
    rw [set_channel_countP_ne A cA B _ hAB, e1, List.countP_append, hBunset]
    simp [List.countP_cons]
  have hmcA : ((A : Nat), (cA : Nat)) ∈
      (Tracker.set_channel A cA (Tracker.set_channel_if_unset B cB s)).channels := by
    have : ((A : Nat), (cA : Nat)) ∈
        (Tracker.set_channel A cA (Tracker.set_channel_if_unset B cB s)).channels.filter
          (fun r => r.1 == A) := by
      rw [hfA]
      exact List.mem_singleton.mpr rfl
    exact List.mem_of_mem_filter this
  have hmcB : ((B : Nat), (cB : Nat)) ∈
      (Tracker.set_channel A cA (Tracker.set_channel_if_unset B cB s)).channels := by
    apply set_channel_mem_ne A cA (B, cB) _ (by simpa using Ne.symm hAB)
    rw [e1]
    exact List.mem_append_right _ (List.mem_singleton.mpr rfl)
  refine ⟨?_, ?_, ?_, ?_⟩
  · exact mem_get_spectator_channels.mpr ⟨hmcA, by rw [espec]; exact hmA⟩
  · exact mem_get_spectator_channels.mpr ⟨hmcB, by rw [espec]; exact hmB⟩
  · rw [countP_get_spectator_channels, hcA]
    rw [show (Tracker.set_channel A cA
      (Tracker.set_channel_if_unset B cB s)).spectators = s.spectators from espec, hsA]
  · rw [countP_get_spectator_channels, hcB]
    rw [show (Tracker.set_channel A cA
      (Tracker.set_channel_if_unset B cB s)).spectators = s.spectators from espec, hsB]

theorem get_spectator_channels_two_groups_spec_witness :
    ((20 : Nat) ≠ 30
     ∧ natStoreChans.channels.countP (fun r => r.1 == 30) = 0
     ∧ natStoreChans.channels.countP (fun r => r.1 == 20) ≤ 1
     ∧ natStoreChans.spectators.countP (fun r => r.1 == 20 && r.2.1 == 1) = 1
     ∧ natStoreChans.spectators.countP (fun r => r.1 == 30 && r.2.1 == 1) = 1
     ∧ (20, 1, (none : Option Nat)) ∈ natStoreChans.spectators
     ∧ (30, 1, some 4) ∈ natStoreChans.spectators)
    ∧ ((20, 88, (none : Option Nat)) ∈ Tracker.get_spectator_channels 1
        (Tracker.set_channel 20 88 (Tracker.set_channel_if_unset 30 99 natStoreChans))
      ∧ (30, 99, some 4) ∈ Tracker.get_spectator_channels 1
        (Tracker.set_channel 20 88 (Tracker.set_channel_if_unset 30 99 natStoreChans))
      ∧ (Tracker.get_spectator_channels 1
          (Tracker.set_channel 20 88 (Tracker.set_channel_if_unset 30 99 natStoreChans))).countP
            (fun e => e.1 == 20) = 1
      ∧ (Tracker.get_spectator_channels 1
          (Tracker.set_channel 20 88 (Tracker.set_channel_if_unset 30 99 natStoreChans))).countP
            (fun e => e.1 == 30) = 1) :=
  ⟨⟨by decide, by decide, by decide, by decide, by decide, by decide, by decide⟩,
   get_spectator_channels_two_groups_spec 20 30 88 99 1 none (some 4) natStoreChans
     (by decide) (by decide) (by decide) (by decide) (by decide) (by decide) (by decide)⟩

/-- C9: `set_rating` (raider) and `set_level` (faceit) touch only the
players table; they rewrite exactly the named mutable fields of the row
with the given id, leave every other row (and every field the statement
does not name) unchanged, and are a no-op — zero rows affected, no error
— when no row has that id. -/
theorem field_update_frame_spec (pid : Nat) (v : Rat) (s : Store RaiderFields)
    (pid2 : Nat) (lv el : Int) (t : Store FaceitFields) :
    ((RaiderTracker.set_rating pid v s).spectators = s.spectators
     ∧ (RaiderTracker.set_rating pid v s).channels = s.channels
     ∧ (RaiderTracker.set_rating pid v s).nextId = s.nextId
     ∧ (RaiderTracker.set_rating pid v s).players.length = s.players.length
     ∧ (∀ i (hi : i < s.players.length)
          (hi' : i < (RaiderTracker.set_rating pid v s).players.length),
          (RaiderTracker.set_rating pid v s).players.get ⟨i, hi'⟩ =
            if (s.players.get ⟨i, hi⟩).1 = pid then
              ((s.players.get ⟨i, hi⟩).1,
               { (s.players.get ⟨i, hi⟩).2 with rating := v })
            else s.players.get ⟨i, hi⟩)
     ∧ ((∀ p ∈ s.players, p.1 ≠ pid) → RaiderTracker.set_rating pid v s = s))
    ∧ ((FaceitTracker.set_level pid2 lv el t).spectators = t.spectators
     ∧ (FaceitTracker.set_level pid2 lv el t).channels = t.channels
     ∧ (FaceitTracker.set_level pid2 lv el t).nextId = t.nextId
     ∧ (FaceitTracker.set_level pid2 lv el t).players.length = t.players.length
     ∧ (∀ i (hi : i < t.players.length)
          (hi' : i < (FaceitTracker.set_level pid2 lv el t).players.length),
          (FaceitTracker.set_level pid2 lv el t).players.get ⟨i, hi'⟩ =
            if (t.players.get ⟨i, hi⟩).1 = pid2 then
              ((t.players.get ⟨i, hi⟩).1,
               { (t.players.get ⟨i, hi⟩).2 with level := lv, elo := el })
            else t.players.get ⟨i, hi⟩)
     ∧ ((∀ p ∈ t.players, p.1 ≠ pid2) → FaceitTracker.set_level pid2 lv el t = t)) := by
  constructor
  · refine ⟨rfl, rfl, rfl, by simp [RaiderTracker.set_rating], ?_, ?_⟩
    · intro i hi hi'
      have hmap : (RaiderTracker.set_rating pid v s).players.get ⟨i, hi'⟩ =
          (fun p => if p.1 == pid then (p.1, { p.2 with rating := v }) else p)
            (s.players.get ⟨i, hi⟩) := by
        simp [RaiderTracker.set_rating]
      rw [hmap]
      by_cases hb : ((s.players.get ⟨i, hi⟩).1 == pid) = true
      · have hb' : (s.players.get ⟨i, hi⟩).1 = pid := by simpa using hb
        simp [hb, hb']
      · have hb' : ¬(s.players.get ⟨i, hi⟩).1 = pid := by simpa using hb
        simp [hb, hb']
    · intro hnone
      have : s.players.map
          (fun p => if p.1 == pid then (p.1, { p.2 with rating := v }) else p)
          = s.players := by
        have hc : ∀ p ∈ s.players,
            (if p.1 == pid then (p.1, { p.2 with rating := v }) else p) = id p :=
          fun p hp => by rw [if_neg (by simpa using hnone p hp)]; rfl
        rw [List.map_congr_left hc, List.map_id]
      rw [RaiderTracker.set_rating, this]
  · refine ⟨rfl, rfl, rfl, by simp [FaceitTracker.set_level], ?_, ?_⟩
    · intro i hi hi'
      have hmap : (FaceitTracker.set_level pid2 lv el t).players.get ⟨i, hi'⟩ =
          (fun p => if p.1 == pid2 then (p.1, { p.2 with level := lv, elo := el }) else p)
            (t.players.get ⟨i, hi⟩) := by
        simp [FaceitTracker.set_level]
      rw [hmap]
      by_cases hb : ((t.players.get ⟨i, hi⟩).1 == pid2) = true
      · have hb' : (t.players.get ⟨i, hi⟩).1 = pid2 := by simpa using hb
        simp [hb, hb']
      · have hb' : ¬(t.players.get ⟨i, hi⟩).1 = pid2 := by simpa using hb
        simp [hb, hb']
    · intro hnone
      have : t.players.map
          (fun p => if p.1 == pid2 then (p.1, { p.2 with level := lv, elo := el }) else p)
          = t.players := by
        have hc : ∀ p ∈ t.players,
            (if p.1 == pid2 then (p.1, { p.2 with level := lv, elo := el }) else p) = id p :=
          fun p hp => by rw [if_neg (by simpa using hnone p hp)]; rfl
        rw [List.map_congr_left hc, List.map_id]
      rw [FaceitTracker.set_level, this]

theorem field_update_frame_spec_witness :
    ((RaiderTracker.set_rating 1 1600 raiderStoreW).spectators = raiderStoreW.spectators
     ∧ (RaiderTracker.set_rating 1 1600 raiderStoreW).channels = raiderStoreW.channels
     ∧ (RaiderTracker.set_rating 1 1600 raiderStoreW).nextId = raiderStoreW.nextId
     ∧ (RaiderTracker.set_rating 1 1600 raiderStoreW).players.length
        = raiderStoreW.players.length
     ∧ (∀ i (hi : i < raiderStoreW.players.length)
          (hi' : i < (RaiderTracker.set_rating 1 1600 raiderStoreW).players.length),
          (RaiderTracker.set_rating 1 1600 raiderStoreW).players.get ⟨i, hi'⟩ =
            if (raiderStoreW.players.get ⟨i, hi⟩).1 = 1 then
              ((raiderStoreW.players.get ⟨i, hi⟩).1,
               { (raiderStoreW.players.get ⟨i, hi⟩).2 with rating := 1600 })
            else raiderStoreW.players.get ⟨i, hi⟩)
     ∧ ((∀ p ∈ raiderStoreW.players, p.1 ≠ 1) →
          RaiderTracker.set_rating 1 1600 raiderStoreW = raiderStoreW))
    ∧ ((FaceitTracker.set_level 7 11 3100 faceitStoreW).spectators = faceitStoreW.spectators
     ∧ (FaceitTracker.set_level 7 11 3100 faceitStoreW).channels = faceitStoreW.channels
     ∧ (FaceitTracker.set_level 7 11 3100 faceitStoreW).nextId = faceitStoreW.nextId
     ∧ (FaceitTracker.set_level 7 11 3100 faceitStoreW).players.length
        = faceitStoreW.players.length
     ∧ (∀ i (hi : i < faceitStoreW.players.length)
          (hi' : i < (FaceitTracker.set_level 7 11 3100 faceitStoreW).players.length),
          (FaceitTracker.set_level 7 11 3100 faceitStoreW).players.get ⟨i, hi'⟩ =
            if (faceitStoreW.players.get ⟨i, hi⟩).1 = 7 then
              ((faceitStoreW.players.get ⟨i, hi⟩).1,
               { (faceitStoreW.players.get ⟨i, hi⟩).2 with level := 11, elo := 3100 })
            else faceitStoreW.players.get ⟨i, hi⟩)
     ∧ ((∀ p ∈ faceitStoreW.players, p.1 ≠ 7) →
          FaceitTracker.set_level 7 11 3100 faceitStoreW = faceitStoreW)) :=
  field_update_frame_spec 1 1600 raiderStoreW 7 11 3100 faceitStoreW

/-- C1: the "notify iff a tracked field differs" rule fails on the
valorant update path: with a fetched state equal to the stored record
field for field, the guard `if new_rr != player.rr or True:` is still
taken (the `or True` makes it unconditional), so the record is rewritten
via `set_level` and one notification per subscribing group is emitted
where the claim requires zero. -/
theorem valorant_update_player_notifies_without_change :
    valorantDataSame.currenttierpatched = valorantPlayerSame.rank
    ∧ valorantDataSame.elo = valorantPlayerSame.rr
    ∧ valorantDataSame.ranking_in_tier = valorantPlayerSame.rr_mod
    ∧ (ValorantPlugin.update_player (fun _ => true) (1, valorantPlayerSame)
        valorantDataSame valorantStoreSame).2 = [(10, 99, none)] := by
  refine ⟨rfl, rfl, rfl, ?_⟩
  rw [ValorantPlugin.update_player, if_pos (Or.inr trivial)]
  rfl

/-- C2: fetch-failure isolation holds for the raider sweep (the failing
player is skipped and the other player is still fetched, updated, and
notified about) but fails for the valorant sweep, which wraps no
try/except around the fetch: the same single-player failure makes the
whole valorant sweep return with the error escaped, no player updated and
zero notifications sent — the second player is never fetched. -/
theorem valorant_update_aborts_sweep_on_fetch_failure :
    ValorantPlugin.update valorantFetchFailFirst (fun _ => true)
        [(1, valorantPlayerX), (2, valorantPlayerY)] valorantStoreXY
      = (valorantStoreXY, [], some "transient")
    ∧ (RaiderPlugin.update raiderFetchFailFirst (fun _ => true)
        [(1, raiderPlayerX), (2, raiderPlayerY)] raiderStoreXY).1.players
      = [(1, raiderPlayerX), (2, { raiderPlayerY with rating := 1600 })]
    ∧ (RaiderPlugin.update raiderFetchFailFirst (fun _ => true)
        [(1, raiderPlayerX), (2, raiderPlayerY)] raiderStoreXY).2
      = [(10, 99, none)] := by
  refine ⟨rfl, ?_, ?_⟩ <;> decide

end Claims

end Mythical
